import Mathlib

/-!
Shallow embedding of the Blender batch script `importCollada.py`.

The script runs inside the Blender process.  We model the relevant part of
the Blender data model explicitly:

* objects (`Obj`) with their type, scene membership, selection state,
  parent link and transform.  Transforms are modelled by their translation
  component only (a `Vec3` of rationals); rotation and scale play no role in
  any property considered here.  The world-space translation of an object is
  the sum of its local translation and the world-space translation of its
  parent (fuel-bounded recursion over the parent chain).
* the world datablock with its shader-node tree (`World`, `WNode`, `WLink`),
* the render settings of the scene (`RenderSettings`),
* the whole mutable state (`BState`).

Operators of the `bpy.ops` API are modelled by their documented behaviour;
in particular the object operators `parent_clear`, `origin_set`,
`location_clear` and `delete` act on the currently selected editable
objects of the view layer (the active object is not implicitly included),
`select_all(action='DESELECT')` deselects the objects of the scene, and the
add operators deselect everything, then link, select and activate the new
object.  Object names are unique inside `bpy.data.objects`.

File-system and process effects (directory creation, the COLLADA import,
saving, rendering, quitting) are recorded in an event trace (`Event`); the
behaviour of the COLLADA importer itself is host code, so `run` is
parametrised by the import result (`Except` an error message, the state
that the importer leaves behind).  `os.makedirs` applied to the empty string raises
`FileNotFoundError` even with `exist_ok=True`; applied to a non-empty
directory name it is assumed to succeed.  Scalar constants written as
decimal literals in the source are modelled as the exact rationals those
literals denote, and `math.radians` as multiplication with
`math.pi = 884279719003555/2^48` (the IEEE double) over 180.
-/

/-- Translation vector with rational coordinates. -/
structure Vec3 where
  x : Rat
  y : Rat
  z : Rat
deriving DecidableEq, Repr

def Vec3.add (a b : Vec3) : Vec3 := ⟨a.x + b.x, a.y + b.y, a.z + b.z⟩

/-- RGBA colour value. -/
structure Color4 where
  r : Rat
  g : Rat
  b : Rat
  a : Rat
deriving DecidableEq, Repr

/-- The object types the script distinguishes (`obj.type` in bpy). -/
inductive ObjType where
  | ARMATURE
  | MESH
  | LIGHT
  | CAMERA
  | OTHER
deriving DecidableEq, Repr

/-- Data block of a light object (`obj.data` for lights). -/
structure LightData where
  kind : String
  energy : Rat
  diffuse_factor : Rat
  specular_factor : Rat
  angle : Rat
deriving DecidableEq, Repr

/-- A Blender object.  `inScene` is membership in the current scene
(`bpy.context.scene.objects`); all objects together form
`bpy.data.objects`.  `location` is the local translation; `origin` is the
position of the object origin relative to its geometry, and
`geomBoundsCenter` the centre of the bounds of its geometry in the same
frame (only meaningful for meshes). -/
structure Obj where
  name : String
  type : ObjType
  inScene : Bool
  selected : Bool
  parent : Option String
  location : Vec3
  rotation_euler : Vec3
  origin : Vec3
  geomBoundsCenter : Vec3
  light : Option LightData
deriving DecidableEq, Repr

/-- A node of the world shader-node tree. -/
structure WNode where
  nid : Nat
  ntype : String
  colorInput : Color4
  strengthInput : Rat
  nodeLoc : Rat × Rat
deriving DecidableEq, Repr

/-- A link between an output socket and an input socket of two nodes. -/
structure WLink where
  fromNode : Nat
  fromSocket : String
  toNode : Nat
  toSocket : String
deriving DecidableEq, Repr

/-- A world datablock with its node tree.  An empty `nodes` list stands for
a node tree that has not been created yet. -/
structure World where
  name : String
  use_nodes : Bool
  nodes : List WNode
  links : List WLink
  nextId : Nat
deriving DecidableEq, Repr

/-- The render settings of the scene (`scene.render`). -/
structure RenderSettings where
  engine : String
  fileFormat : String
  filepath : String
  resolution_x : Nat
  resolution_y : Nat
  film_transparent : Bool
deriving DecidableEq, Repr

/-- The mutable Blender state the script works on. -/
structure BState where
  objects : List Obj
  sceneCamera : Option String
  world : Option World
  active : Option String
  render : RenderSettings
deriving DecidableEq, Repr

/-- The objects of the current scene (`bpy.context.scene.objects`). -/
def sceneObjs (st : BState) : List Obj :=
  st.objects.filter (fun o => o.inScene)

/-- Model of `bpy.ops.object.select_all(action='DESELECT')`: deselects the
objects of the scene. -/
def deselect_all (st : BState) : BState :=
  { st with objects := st.objects.map fun o =>
      if o.inScene then { o with selected := false } else o }

/-- Model of `obj.select_set(True)` on the object named `n`. -/
def select_set_true (n : String) (st : BState) : BState :=
  { st with objects := st.objects.map fun o =>
      if decide (o.name = n) then { o with selected := true } else o }

/-- Model of `bpy.context.view_layer.objects.active = obj`. -/
def setActive (n : String) (st : BState) : BState :=
  { st with active := some n }

/-- World-space translation of an object: local translation plus the
world-space translation of the parent, with fuel bounding the parent-chain
recursion. -/
def worldLocAux (objs : List Obj) : Nat → Obj → Vec3
  | 0, o => o.location
  | fuel + 1, o =>
    match o.parent with
    | none => o.location
    | some p =>
      match objs.find? (fun q => decide (q.name = p)) with
      | none => o.location
      | some q => Vec3.add o.location (worldLocAux objs fuel q)

/-- World-space translation of an object in a state. -/
def worldLoc (st : BState) (o : Obj) : Vec3 :=
  worldLocAux st.objects st.objects.length o

/-- Model of `bpy.ops.object.parent_clear(type='CLEAR_KEEP_TRANSFORM')`.
The operator acts on the selected editable objects of the view layer; the
active object is not implicitly included.  Each affected object loses its
parent link and keeps its world transform, which is baked into the local
transform. -/
def parent_clear_keep_transform (st : BState) : BState :=
  { st with objects := st.objects.map fun o =>
      if o.inScene && o.selected then
        { o with parent := none, location := worldLoc st o }
      else o }

/-- Lines 61-66 of the script for one armature: for each object of
`bpy.data.objects` whose parent is the armature and whose type is `MESH`,
make it active and invoke `parent_clear`. -/
def clearArmatureChildren (armName : String) (st : BState) : BState :=
  let childs := st.objects.filter fun c =>
    decide (c.parent = some armName) && decide (c.type = ObjType.MESH)
  childs.foldl (fun s c => parent_clear_keep_transform (setActive c.name s)) st

/-- Lines 55-66: walk the scene objects, collect the armatures, and run the
parent-clearing loop for the mesh children of each armature.  Returns the
resulting state and the names of the collected armatures. -/
def armatureClearPhase (st : BState) : BState × List String :=
  let arms := ((sceneObjs st).filter fun o =>
    decide (o.type = ObjType.ARMATURE)).map (fun o => o.name)
  (arms.foldl (fun s a => clearArmatureChildren a s) st, arms)

/-- Model of `bpy.ops.object.delete(use_global=True, confirm=False)`:
removes the selected objects of the scene from `bpy.data`; an object
parented to a removed object loses the parent link (and thereby falls back
to its local transform).  Dangling pointers to a removed object
(`scene.camera`, the active object) are cleared. -/
def delete_selected_use_global (st : BState) : BState :=
  let doomed := (st.objects.filter fun o => o.inScene && o.selected).map (fun o => o.name)
  { st with
    objects := (st.objects.filter fun o => !(doomed.contains o.name)).map fun o =>
      match o.parent with
      | some p => if doomed.contains p then { o with parent := none } else o
      | none => o,
    sceneCamera := match st.sceneCamera with
      | some c => if doomed.contains c then none else some c
      | none => none,
    active := match st.active with
      | some c => if doomed.contains c then none else some c
      | none => none }

/-- Lines 52-83: the armature-removal step.  Deselect everything, collect
the armatures of the scene while running the parent-clearing loop, then (if
any armature was found) deselect everything, select the armatures, make the
first one active and delete the selection. -/
def armatureRemovalStep (st : BState) : BState :=
  let st1 := deselect_all st
  let pr := armatureClearPhase st1
  match pr.2 with
  | [] => pr.1
  | a :: _ =>
    let st2 := deselect_all pr.1
    let st3 := pr.2.foldl (fun s n => select_set_true n s) st2
    let st4 := setActive a st3
    delete_selected_use_global st4

/-- Lines 87-89 and 96-98: select every mesh object of the scene. -/
def select_scene_meshes (st : BState) : BState :=
  { st with objects := st.objects.map fun o =>
      if o.inScene && decide (o.type = ObjType.MESH) then
        { o with selected := true }
      else o }

/-- The selected objects of the scene (`bpy.context.selected_objects`). -/
def selectedSceneObjs (st : BState) : List Obj :=
  st.objects.filter fun o => o.inScene && o.selected

/-- Model of `bpy.ops.object.origin_set(type='ORIGIN_GEOMETRY',
center='BOUNDS')`: for each selected object of the scene, move the object
origin to the centre of the bounds of its geometry. -/
def origin_set_geometry_bounds (st : BState) : BState :=
  { st with objects := st.objects.map fun o =>
      if o.inScene && o.selected then { o with origin := o.geomBoundsCenter } else o }

/-- Model of `bpy.ops.object.location_clear()`: clear the location of each
selected object of the scene. -/
def location_clear_selected (st : BState) : BState :=
  { st with objects := st.objects.map fun o =>
      if o.inScene && o.selected then { o with location := ⟨0, 0, 0⟩ } else o }

/-- Lines 85-107: the placement-normalisation step.  Select the scene
meshes (twice, with a deselect in between, as the script does); if any
object is selected, make the first selected object active, set origins to
the geometry-bounds centre and clear locations. -/
def centerStep (st : BState) : BState :=
  let s1 := select_scene_meshes (deselect_all st)
  let s2 := deselect_all s1
  let s3 := select_scene_meshes s2
  match selectedSceneObjs s3 with
  | [] => s3
  | o :: _ => location_clear_selected (origin_set_geometry_bounds (setActive o.name s3))

/-- The IEEE-double value of `math.pi`. -/
def mathPi : Rat := 884279719003555 / 281474976710656

/-- Model of `math.radians`: degrees times pi over 180. -/
def mathRadians (d : Rat) : Rat := d * mathPi / 180

/-- Host default for the angle of a new Sun light (about 0.526 degrees);
the script overwrites it. -/
def defaultSunAngle : Rat := mathRadians (526 / 1000)

/-- The camera object created by `bpy.ops.object.camera_add(location=(7.0,
-7.0, 5.0))` before the script mutates it. -/
def newCameraObj : Obj :=
  { name := "Camera", type := ObjType.CAMERA, inScene := true, selected := true,
    parent := none, location := ⟨7, -7, 5⟩, rotation_euler := ⟨0, 0, 0⟩,
    origin := ⟨0, 0, 0⟩, geomBoundsCenter := ⟨0, 0, 0⟩, light := none }

/-- The light object created by `bpy.ops.object.light_add(type='SUN',
location=(0,0,0))` before the script mutates it. -/
def newSunObj : Obj :=
  { name := "Sun", type := ObjType.LIGHT, inScene := true, selected := true,
    parent := none, location := ⟨0, 0, 0⟩, rotation_euler := ⟨0, 0, 0⟩,
    origin := ⟨0, 0, 0⟩, geomBoundsCenter := ⟨0, 0, 0⟩,
    light := some { kind := "SUN", energy := 1, diffuse_factor := 1,
                    specular_factor := 1, angle := defaultSunAngle } }

/-- Lines 109-114: if the scene has no active camera, add a camera at
(7.0, -7.0, 5.0) (the add operator deselects the other objects and makes
the new object selected and active), set its rotation to (1.1, 0, 0.8) and
make it the active camera of the scene. -/
def cameraPhase (st : BState) : BState :=
  match st.sceneCamera with
  | some _ => st
  | none =>
    let cam := { newCameraObj with rotation_euler := (⟨1.1, 0, 0.8⟩ : Vec3) }
    let st1 := deselect_all st
    { st1 with objects := st1.objects ++ [cam], active := some cam.name,
               sceneCamera := some cam.name }

/-- Lines 128-151 applied to the freshly added Sun object (via
`bpy.context.object`): energy 3.0, diffuse and specular factors 1.0, angle
`math.radians(5.0)`, and rotation `(math.radians(-60), unchanged,
math.radians(0))`. -/
def sunMutations (o : Obj) : Obj :=
  match o.light with
  | none => o
  | some ld =>
    { o with
      light := some { ld with
                      energy := 3, diffuse_factor := 1,
                      specular_factor := 1, angle := mathRadians 5 },
      rotation_euler := ⟨mathRadians (-60), o.rotation_euler.y, mathRadians 0⟩ }

/-- Lines 116-155: scan `bpy.data.objects` (not only the current scene) for
a light object; if none exists, add a Sun light and apply the property
mutations of the script. -/
def lightPhase (st : BState) : BState :=
  if st.objects.any (fun o => decide (o.type = ObjType.LIGHT)) then st
  else
    let sun := sunMutations newSunObj
    let st1 := deselect_all st
    { st1 with objects := st1.objects ++ [sun], active := some sun.name }

/-- Lines 109-155: the camera and light step. -/
def cameraLightStep (st : BState) : BState :=
  lightPhase (cameraPhase st)

/-- Lines 52-155: the whole scene processing after a successful import. -/
def processedState (st : BState) : BState :=
  cameraLightStep (centerStep (armatureRemovalStep st))

/-- Host default colour of a new Background node. -/
def defaultBackgroundColor : Color4 := ⟨0.05, 0.05, 0.05, 1⟩

/-- The Background node of the default node tree a world receives when
`use_nodes` is first enabled. -/
def defaultBackgroundNode (i : Nat) : WNode :=
  { nid := i, ntype := "BACKGROUND", colorInput := defaultBackgroundColor,
    strengthInput := 1, nodeLoc := (0, 0) }

/-- The World Output node of the default node tree. -/
def defaultOutputNode (i : Nat) : WNode :=
  { nid := i, ntype := "OUTPUT_WORLD", colorInput := defaultBackgroundColor,
    strengthInput := 0, nodeLoc := (0, 0) }

/-- Model of `bpy.data.worlds.new(n)`: a fresh world without a node tree. -/
def newWorld (n : String) : World :=
  { name := n, use_nodes := false, nodes := [], links := [], nextId := 0 }

/-- Model of `world.use_nodes = True`: creates the default node tree (a
Background node linked to the World Output node) when the world has none;
an existing tree is kept. -/
def enable_use_nodes (w : World) : World :=
  if w.nodes.isEmpty then
    { w with use_nodes := true,
             nodes := [defaultBackgroundNode 0, defaultOutputNode 1],
             links := [⟨0, "Background", 1, "Surface"⟩],
             nextId := 2 }
  else { w with use_nodes := true }

/-- Whether the world-setup part of the render section terminates without
an exception: after enabling nodes the tree must contain a World Output
node, otherwise `next(...)` on line 214 raises `StopIteration`. -/
def worldReady (st : BState) : Bool :=
  match st.world with
  | none => true
  | some w => w.nodes.isEmpty || w.nodes.any (fun n => decide (n.ntype = "OUTPUT_WORLD"))

/-- Lines 166-223: the render set-up.  Engine to Cycles; get or create the
world; enable nodes; drop every node that is not a World Output node
(removing a node also removes the links attached to it); add a Background
node at (-300, 0) with colour (0.5, 0.5, 0.5, 1.0) and strength 5.0;
connect it to the Surface input of the first World Output node (`none`
models the `StopIteration` crash when no such node exists); finally set the
image settings.  Returns the state just before `render.render`. -/
def renderSetupStep (imgPath : String) (st : BState) : Option BState :=
  let stA := { st with render := { st.render with engine := "CYCLES" } }
  let w0 := match stA.world with
    | some w => w
    | none => newWorld "NewWorld"
  let w1 := enable_use_nodes w0
  let keep := w1.nodes.filter fun n => decide (n.ntype = "OUTPUT_WORLD")
  let w2 := { w1 with nodes := keep,
                      links := w1.links.filter fun l =>
                        (keep.any fun n => decide (n.nid = l.fromNode)) &&
                        (keep.any fun n => decide (n.nid = l.toNode)) }
  let bg : WNode := { nid := w2.nextId, ntype := "BACKGROUND",
                      colorInput := ⟨0.5, 0.5, 0.5, 1⟩, strengthInput := 5,
                      nodeLoc := (-300, 0) }
  let w3 := { w2 with nodes := w2.nodes ++ [bg], nextId := w2.nextId + 1 }
  match w3.nodes.find? (fun n => decide (n.ntype = "OUTPUT_WORLD")) with
  | none => none
  | some out =>
    let w4 := { w3 with links := w3.links ++ [⟨bg.nid, "Background", out.nid, "Surface"⟩] }
    let stB := { stA with world := some w4 }
    some { stB with render := { stB.render with
      fileFormat := "PNG", filepath := imgPath,
      resolution_x := 1920, resolution_y := 1080, film_transparent := true } }

/-- Model of the slice `argv[argv.index("--") + 1:] if "--" in argv else
[]`: everything after the first `--`, or the empty list. -/
def afterDashDash : List String → List String
  | [] => []
  | a :: rest => if a = "--" then rest else afterDashDash rest

/-- Model of `os.path.dirname` (posix): everything up to the last slash;
trailing slashes are stripped unless the result consists of slashes only;
the empty string when the path has no slash. -/
def dirname (p : String) : String :=
  let head := (p.toList.reverse.dropWhile fun c => decide (c ≠ '/')).reverse
  if head.any (fun c => decide (c ≠ '/')) then
    String.mk ((head.reverse.dropWhile fun c => decide (c = '/')).reverse)
  else String.mk head

def noInputMsg : String := "Error: No input DAE file path provided."

def usageMsg : String := "Usage: blender -b -P script.py -- input.dae [output.blend] [render.png]"

def attemptMsg (p : String) : String := "Attempting to import DAE: " ++ p

def importErrorMsg (e : String) : String := "Error importing DAE file: " ++ e

def fnfMsg : String := "FileNotFoundError"

/-- Observable side effects of a run. -/
inductive Event where
  | printMsg (msg : String)
  | makedirs (dir : String)
  | readFactorySettings (use_empty : Bool)
  | colladaImport (filepath : String) (auto_connect find_chains fix_orientation : Bool)
  | saveMainfile (filepath : String)
  | renderWrite (settings : RenderSettings)
  | quitBlender
deriving DecidableEq, Repr

/-- How a run ends: `sys.exit(code)`, an uncaught exception, or reaching
the end of the script. -/
inductive Outcome where
  | exited (code : Nat)
  | exception (msg : String)
  | completed
deriving DecidableEq, Repr

structure RunResult where
  outcome : Outcome
  events : List Event
deriving DecidableEq, Repr

/-- The directory-creation events of lines 20-24 (none for an absent or
empty path). -/
def mkdirEvents (bp ip : String) : List Event :=
  (if bp = "" then [] else [Event.makedirs (dirname bp)]) ++
  (if ip = "" then [] else [Event.makedirs (dirname ip)])

/-- The events from the start of a run up to and including the call of the
COLLADA importer. -/
def preImportEvents (input bp ip : String) : List Event :=
  mkdirEvents bp ip ++
    [Event.printMsg (attemptMsg input),
     Event.readFactorySettings true,
     Event.colladaImport input true false true]

/-- The whole script, parametrised over the full command line and the
result of the COLLADA importer (an error message for a `RuntimeError`, or
the state the importer leaves behind when it succeeds on the emptied
factory scene). -/
def run (argvFull : List String) (imp : Except String BState) : RunResult :=
  match afterDashDash argvFull with
  | [] =>
    { outcome := Outcome.exited 1,
      events := [Event.printMsg noInputMsg, Event.printMsg usageMsg] }
  | input :: rest =>
    let bp := rest.getD 0 ""
    let ip := rest.getD 1 ""
    if bp ≠ "" ∧ dirname bp = "" then
      { outcome := Outcome.exception fnfMsg, events := [] }
    else if ip ≠ "" ∧ dirname ip = "" then
      { outcome := Outcome.exception fnfMsg,
        events := if bp = "" then [] else [Event.makedirs (dirname bp)] }
    else
      let pre := preImportEvents input bp ip
      match imp with
      | Except.error e =>
        { outcome := Outcome.exited 1,
          events := pre ++ [Event.printMsg (importErrorMsg e)] }
      | Except.ok st0 =>
        let st3 := processedState st0
        let evs := pre ++ (if bp = "" then [] else [Event.saveMainfile bp])
        if ip = "" then
          { outcome := Outcome.completed, events := evs ++ [Event.quitBlender] }
        else
          match renderSetupStep ip st3 with
          | none => { outcome := Outcome.exception "StopIteration", events := evs }
          | some st4 =>
            { outcome := Outcome.completed,
              events := evs ++ [Event.renderWrite st4.render, Event.quitBlender] }

/-- All fields of an object except its selection state. -/
def objCore (o : Obj) :
    String × ObjType × Bool × Option String × Vec3 × Vec3 × Vec3 × Vec3 × Option LightData :=
  (o.name, o.type, o.inScene, o.parent, o.location, o.rotation_euler,
   o.origin, o.geomBoundsCenter, o.light)

def isSaveEvent : Event → Bool
  | Event.saveMainfile _ => true
  | _ => false

def isRenderEvent : Event → Bool
  | Event.renderWrite _ => true
  | _ => false

def isMakedirsEvent : Event → Bool
  | Event.makedirs _ => true
  | _ => false

/-- Factory render settings (host defaults; the exact values play no role
in the claims). -/
def factoryRender : RenderSettings :=
  { engine := "BLENDER_EEVEE", fileFormat := "PNG", filepath := "/tmp/",
    resolution_x := 1920, resolution_y := 1080, film_transparent := false }

/-- An empty state, as after `read_factory_settings(use_empty=True)`. -/
def stEmptyEx : BState :=
  { objects := [], sceneCamera := none, world := none, active := none,
    render := factoryRender }

/-- Example armature at translation (1, 2, 3). -/
def armEx : Obj :=
  { name := "Arm", type := ObjType.ARMATURE, inScene := true, selected := false,
    parent := none, location := ⟨1, 2, 3⟩, rotation_euler := ⟨0, 0, 0⟩,
    origin := ⟨0, 0, 0⟩, geomBoundsCenter := ⟨0, 0, 0⟩, light := none }

/-- Example mesh parented to the armature `Arm`, at local translation
(0, 0, 0), hence world translation (1, 2, 3). -/
def meshEx : Obj :=
  { name := "M", type := ObjType.MESH, inScene := true, selected := false,
    parent := some "Arm", location := ⟨0, 0, 0⟩, rotation_euler := ⟨0, 0, 0⟩,
    origin := ⟨0, 0, 0⟩, geomBoundsCenter := ⟨0, 0, 0⟩, light := none }

/-- Example scene for the armature-removal claim: one armature parenting
one mesh. -/
def stArmEx : BState :=
  { objects := [armEx, meshEx], sceneCamera := none, world := none,
    active := none, render := factoryRender }

/-- Example camera object. -/
def camEx : Obj :=
  { name := "Cam0", type := ObjType.CAMERA, inScene := true, selected := false,
    parent := none, location := ⟨0, 0, 0⟩, rotation_euler := ⟨0, 0, 0⟩,
    origin := ⟨0, 0, 0⟩, geomBoundsCenter := ⟨0, 0, 0⟩, light := none }

/-- Example light object that is in `bpy.data.objects` but not in the
current scene. -/
def outsideLightEx : Obj :=
  { name := "L0", type := ObjType.LIGHT, inScene := false, selected := false,
    parent := none, location := ⟨0, 0, 0⟩, rotation_euler := ⟨0, 0, 0⟩,
    origin := ⟨0, 0, 0⟩, geomBoundsCenter := ⟨0, 0, 0⟩, light := some
      { kind := "POINT", energy := 1, diffuse_factor := 1,
        specular_factor := 1, angle := 0 } }

/-- Example light object inside the current scene. -/
def sceneLightEx : Obj :=
  { outsideLightEx with name := "L1", inScene := true }

/-- Example state with an active camera and a light in the scene. -/
def stCamLightEx : BState :=
  { objects := [camEx, sceneLightEx], sceneCamera := some "Cam0", world := none,
    active := none, render := factoryRender }

/-- Example state whose only light lies outside the current scene, and
whose scene already has an active camera. -/
def stOutsideLightEx : BState :=
  { objects := [camEx, outsideLightEx], sceneCamera := some "Cam0", world := none,
    active := none, render := factoryRender }

/-- Example state with one scene mesh whose geometry-bounds centre is
(5, 6, 7). -/
def meshCenterEx : Obj :=
  { name := "M1", type := ObjType.MESH, inScene := true, selected := false,
    parent := none, location := ⟨4, 4, 4⟩, rotation_euler := ⟨0, 0, 0⟩,
    origin := ⟨0, 0, 0⟩, geomBoundsCenter := ⟨5, 6, 7⟩, light := none }

def stMeshEx : BState :=
  { objects := [meshCenterEx], sceneCamera := none, world := none, active := none,
    render := factoryRender }

theorem select_after_deselect_objects (st : BState) :
    (select_scene_meshes (deselect_all st)).objects
      = st.objects.map fun o =>
          if o.inScene && decide (o.type = ObjType.MESH) then { o with selected := true }
          else if o.inScene then { o with selected := false }
          else o := by
  simp only [select_scene_meshes, deselect_all, List.map_map]
  refine List.map_congr_left fun o _ => ?_
  by_cases h1 : o.inScene <;> by_cases h2 : o.type = ObjType.MESH <;>
    simp [Function.comp, h1, h2]

theorem selectedSceneObjs_select (st : BState) :
    selectedSceneObjs (select_scene_meshes (deselect_all st))
      = (st.objects.filter fun o => o.inScene && decide (o.type = ObjType.MESH)).map
          (fun o => { o with selected := true }) := by
  rw [selectedSceneObjs, select_after_deselect_objects, List.filter_map]
  rw [List.filter_congr (fun o _ => ?_)]
  · refine List.map_congr_left fun o ho => ?_
    have hq := (List.mem_filter.mp ho).2
    by_cases h1 : o.inScene <;> by_cases h2 : o.type = ObjType.MESH <;>
      simp_all [Function.comp]
  · by_cases h1 : o.inScene <;> by_cases h2 : o.type = ObjType.MESH <;>
      simp [Function.comp, h1, h2]

theorem select_deselect_idem (st : BState) :
    select_scene_meshes (deselect_all (select_scene_meshes (deselect_all st)))
      = select_scene_meshes (deselect_all st) := by
  simp only [select_scene_meshes, deselect_all, List.map_map]
  congr 1
  refine List.map_congr_left fun o _ => ?_
  by_cases h1 : o.inScene <;> by_cases h2 : o.type = ObjType.MESH <;>
    simp [Function.comp, h1, h2]

theorem centerStep_eq (st : BState) :
    centerStep st
      = match selectedSceneObjs (select_scene_meshes (deselect_all st)) with
        | [] => select_scene_meshes (deselect_all st)
        | o :: _ =>
          location_clear_selected (origin_set_geometry_bounds
            (setActive o.name (select_scene_meshes (deselect_all st)))) := by
  unfold centerStep
  dsimp only []
  rw [select_deselect_idem]

/-- Claim C2: placement is normalised by the centering step.  When the
scene contains at least one mesh object, every mesh object of the scene
ends with its origin set to the centre of its geometry bounds and its
location cleared to (0, 0, 0); when the scene contains no mesh object, the
step changes no field of any object other than the selection flag and
leaves the rest of the state untouched. -/
theorem collada_c2_placement_normalization (st : BState) :
    ((∃ o ∈ st.objects, o.inScene = true ∧ o.type = ObjType.MESH) →
      ∀ o ∈ (centerStep st).objects, o.inScene = true → o.type = ObjType.MESH →
        o.origin = o.geomBoundsCenter ∧ o.location = ⟨0, 0, 0⟩) ∧
    ((∀ o ∈ st.objects, o.inScene = true → ¬ o.type = ObjType.MESH) →
      (centerStep st).objects.map objCore = st.objects.map objCore ∧
      (centerStep st).sceneCamera = st.sceneCamera ∧
      (centerStep st).world = st.world ∧
      (centerStep st).active = st.active ∧
      (centerStep st).render = st.render) := by
  have hsel := selectedSceneObjs_select st
  rw [centerStep_eq]
  rcases hf : st.objects.filter (fun o => o.inScene && decide (o.type = ObjType.MESH))
    with _ | ⟨o0, os⟩
  · rw [hf] at hsel
    rw [hsel]
    simp only [List.map_nil]
    constructor
    · intro hex
      exfalso
      rcases hex with ⟨o, ho, h1, h2⟩
      have hmem : o ∈ st.objects.filter (fun o => o.inScene && decide (o.type = ObjType.MESH)) :=
        List.mem_filter.mpr ⟨ho, by simp [h1, h2]⟩
      rw [hf] at hmem
      exact absurd hmem (List.not_mem_nil o)
    · intro _
      refine ⟨?_, rfl, rfl, rfl, rfl⟩
      rw [select_after_deselect_objects, List.map_map]
      refine List.map_congr_left fun o _ => ?_
      by_cases h1 : o.inScene <;> by_cases h2 : o.type = ObjType.MESH <;>
        simp [Function.comp, objCore, h1, h2]
  · rw [hf] at hsel
    rw [hsel]
    simp only [List.map_cons]
    constructor
    · intro _ o ho h1 h2
      simp only [location_clear_selected, origin_set_geometry_bounds, setActive] at ho
      rw [select_after_deselect_objects] at ho
      simp only [List.map_map] at ho
      rcases List.mem_map.mp ho with ⟨a, _, rfl⟩
      by_cases g1 : a.inScene <;> by_cases g2 : a.type = ObjType.MESH <;>
        simp_all [Function.comp]
    · intro hall
      exfalso
      have hmem : o0 ∈ st.objects.filter (fun o => o.inScene && decide (o.type = ObjType.MESH)) := by
        rw [hf]; exact List.mem_cons_self o0 os
      have := List.mem_filter.mp hmem
      rcases this with ⟨hmem2, hcond⟩
      simp only [Bool.and_eq_true, decide_eq_true_eq] at hcond
      exact hall o0 hmem2 hcond.1 hcond.2

theorem deselect_all_objects (st : BState) :
    (deselect_all st).objects
      = st.objects.map fun o => if o.inScene then { o with selected := false } else o := rfl

theorem objCore_desel (o : Obj) :
    objCore (if o.inScene then { o with selected := false } else o) = objCore o := by
  by_cases h : o.inScene <;> simp [objCore, h]

theorem type_desel (o : Obj) :
    (if o.inScene then { o with selected := false } else o).type = o.type := by
  by_cases h : o.inScene <;> simp [h]

theorem filter_objCore_desel (p : Obj → Bool) (q : ObjType → Bool)
    (hp : ∀ o, p o = q o.type) (l : List Obj) :
    ((l.map fun o => if o.inScene then { o with selected := false } else o).filter p).map objCore
      = (l.filter p).map objCore := by
  rw [List.filter_map, List.map_map]
  have : ∀ o ∈ l, (p ∘ fun o => if o.inScene then { o with selected := false } else o) o = p o := by
    intro o _
    simp only [Function.comp]
    rw [hp, hp, type_desel]
  rw [List.filter_congr this]
  refine List.map_congr_left fun o _ => ?_
  simp only [Function.comp]
  exact objCore_desel o

theorem lightPhase_sceneCamera (s : BState) :
    (lightPhase s).sceneCamera = s.sceneCamera := by
  unfold lightPhase
  split <;> rfl

theorem cameraPhase_some (s : BState) (c : String) (hc : s.sceneCamera = some c) :
    cameraPhase s = s := by
  unfold cameraPhase
  rw [hc]

theorem cameraPhase_none (s : BState) (hc : s.sceneCamera = none) :
    cameraPhase s
      = { deselect_all s with
          objects := (deselect_all s).objects
              ++ [{ newCameraObj with rotation_euler := (⟨1.1, 0, 0.8⟩ : Vec3) }],
          active := some "Camera", sceneCamera := some "Camera" } := by
  unfold cameraPhase
  rw [hc]
  rfl

theorem any_pointwise (l : List Obj) (p q : Obj → Bool) (h : ∀ o ∈ l, p o = q o) :
    l.any p = l.any q := by
  induction l with
  | nil => rfl
  | cons a t ih =>
    simp only [List.any_cons]
    rw [h a (List.mem_cons_self a t), ih fun o ho => h o (List.mem_cons_of_mem a ho)]

theorem cameraPhase_any_light (s : BState) :
    ((cameraPhase s).objects.any fun o => decide (o.type = ObjType.LIGHT))
      = (s.objects.any fun o => decide (o.type = ObjType.LIGHT)) := by
  rcases hc : s.sceneCamera with _ | c
  · rw [cameraPhase_none s hc]
    simp only [deselect_all_objects, List.any_append, List.any_map]
    have : ∀ x ∈ s.objects,
        ((fun o => decide (o.type = ObjType.LIGHT)) ∘ fun o =>
          if o.inScene then { o with selected := false } else o) x
          = (fun o => decide (o.type = ObjType.LIGHT)) x := by
      intro x _
      simp only [Function.comp]
      rw [type_desel]
    rw [any_pointwise _ _ _ this]
    simp [newCameraObj]
  · rw [cameraPhase_some s c hc]

theorem lightPhase_true (s : BState)
    (h : (s.objects.any fun o => decide (o.type = ObjType.LIGHT)) = true) :
    lightPhase s = s := by
  unfold lightPhase
  rw [h]
  rfl

theorem lightPhase_false (s : BState)
    (h : (s.objects.any fun o => decide (o.type = ObjType.LIGHT)) = false) :
    lightPhase s
      = { deselect_all s with
          objects := (deselect_all s).objects ++ [sunMutations newSunObj],
          active := some (sunMutations newSunObj).name } := by
  unfold lightPhase
  rw [h]
  rfl

theorem cameraLight_base (st : BState) :
    (cameraLightStep st).sceneCamera.isSome = true ∧
    (∃ o ∈ (cameraLightStep st).objects, o.type = ObjType.LIGHT) := by
  constructor
  · rw [cameraLightStep, lightPhase_sceneCamera]
    rcases hc : st.sceneCamera with _ | c
    · rw [cameraPhase_none st hc]
      rfl
    · rw [cameraPhase_some st c hc, hc]
      rfl
  · rw [cameraLightStep]
    rcases hl : ((cameraPhase st).objects.any fun o => decide (o.type = ObjType.LIGHT)) with _ | _
    · rw [lightPhase_false _ hl]
      refine ⟨sunMutations newSunObj, ?_, by decide⟩
      simp
    · rw [lightPhase_true _ hl]
      rcases List.any_eq_true.mp hl with ⟨o, ho, hp⟩
      exact ⟨o, ho, of_decide_eq_true hp⟩

/-- Claim C3: after the camera and light step the scene has an active
camera and at least one light object exists; a camera (at location
(7, -7, 5), rotation (1.1, 0, 0.8), made the active camera) is added only
when the scene had no active camera, and a Sun light (energy 3.0, angle
radians(5), rotation (radians(-60), 0, radians(0))) is added only when no
light object existed in the data. -/
theorem collada_c3_camera_light_ensured (st : BState) :
    (cameraLightStep st).sceneCamera.isSome = true ∧
    (∃ o ∈ (cameraLightStep st).objects, o.type = ObjType.LIGHT) ∧
    (st.sceneCamera.isSome = true →
      ((cameraLightStep st).objects.filter fun o => decide (o.type = ObjType.CAMERA)).map objCore
          = (st.objects.filter fun o => decide (o.type = ObjType.CAMERA)).map objCore ∧
        (cameraLightStep st).sceneCamera = st.sceneCamera) ∧
    (st.sceneCamera = none →
      ∃ c ∈ (cameraLightStep st).objects, c.type = ObjType.CAMERA ∧
        c.location = ⟨7, -7, 5⟩ ∧ c.rotation_euler = ⟨1.1, 0, 0.8⟩ ∧
        (cameraLightStep st).sceneCamera = some c.name) ∧
    ((st.objects.any fun o => decide (o.type = ObjType.LIGHT)) = true →
      ((cameraLightStep st).objects.filter fun o => decide (o.type = ObjType.LIGHT)).map objCore
        = (st.objects.filter fun o => decide (o.type = ObjType.LIGHT)).map objCore) ∧
    ((st.objects.any fun o => decide (o.type = ObjType.LIGHT)) = false →
      ∃ l ∈ (cameraLightStep st).objects, l.type = ObjType.LIGHT ∧
        l.light = some { kind := "SUN", energy := 3, diffuse_factor := 1,
                         specular_factor := 1, angle := mathRadians 5 } ∧
        l.rotation_euler = ⟨mathRadians (-60), 0, mathRadians 0⟩) := by
  refine ⟨(cameraLight_base st).1, (cameraLight_base st).2, ?_, ?_, ?_, ?_⟩
  · -- camera already present: camera objects and active camera unchanged
    intro hc
    rcases Option.isSome_iff_exists.mp hc with ⟨c, hcc⟩
    rw [cameraLightStep, cameraPhase_some st c hcc]
    rcases hl : (st.objects.any fun o => decide (o.type = ObjType.LIGHT)) with _ | _
    · rw [lightPhase_false _ hl]
      constructor
      · simp only [deselect_all_objects, List.filter_append, List.map_append]
        have h1 : ([sunMutations newSunObj].filter fun o => decide (o.type = ObjType.CAMERA)) = [] := by
          decide
        rw [h1]
        rw [filter_objCore_desel _ (fun t => decide (t = ObjType.CAMERA)) (fun o => rfl)]
        simp
      · rfl
    · rw [lightPhase_true _ hl]
      exact ⟨rfl, rfl⟩
  · -- no active camera: one is added with the documented placement
    intro hc
    rw [cameraLightStep, cameraPhase_none st hc]
    rcases hl : (((cameraPhase st).objects).any fun o => decide (o.type = ObjType.LIGHT)) with _ | _
    · rw [cameraPhase_none st hc] at hl
      rw [lightPhase_false _ hl]
      refine ⟨{ ({ newCameraObj with rotation_euler := (⟨1.1, 0, 0.8⟩ : Vec3) } : Obj) with
                selected := false }, ?_, rfl, rfl, rfl, ?_⟩
      · simp only [deselect_all_objects, List.map_append]
        refine List.mem_append.mpr (Or.inl (List.mem_append.mpr (Or.inr ?_)))
        simp [newCameraObj]
      · rfl
    · rw [cameraPhase_none st hc] at hl
      rw [lightPhase_true _ hl]
      refine ⟨{ newCameraObj with rotation_euler := (⟨1.1, 0, 0.8⟩ : Vec3) }, ?_,
        rfl, rfl, rfl, rfl⟩
      simp
  · -- a light existed somewhere in bpy.data: no light added
    intro hl
    rw [cameraLightStep]
    have hl2 : ((cameraPhase st).objects.any fun o => decide (o.type = ObjType.LIGHT)) = true := by
      rw [cameraPhase_any_light st]
      exact hl
    rw [lightPhase_true _ hl2]
    rcases hc : st.sceneCamera with _ | c
    · rw [cameraPhase_none st hc]
      simp only [deselect_all_objects, List.filter_append, List.map_append]
      have h1 : ([({ newCameraObj with rotation_euler := (⟨1.1, 0, 0.8⟩ : Vec3) } : Obj)].filter
          fun o => decide (o.type = ObjType.LIGHT)) = [] := by decide
      rw [h1]
      rw [filter_objCore_desel _ (fun t => decide (t = ObjType.LIGHT)) (fun o => rfl)]
      simp
    · rw [cameraPhase_some st c hc]
  · -- no light existed: the Sun light of the script is added
    intro hl
    rw [cameraLightStep]
    have hl2 : ((cameraPhase st).objects.any fun o => decide (o.type = ObjType.LIGHT)) = false := by
      rw [cameraPhase_any_light st]
      exact hl
    rw [lightPhase_false _ hl2]
    refine ⟨sunMutations newSunObj, by simp, rfl, rfl, rfl⟩

/-- Claim C10: the light check scans all of the object data, not the
current scene.  For a state whose scene has no light but where some light
object exists in the data, the camera and light step leaves the scene
without any light object. -/
theorem collada_c10_light_scope_mismatch (st : BState)
    (hscene : ∀ o ∈ st.objects, o.inScene = true → ¬ o.type = ObjType.LIGHT)
    (hdata : ∃ o ∈ st.objects, o.type = ObjType.LIGHT) :
    ∀ o ∈ (cameraLightStep st).objects, o.inScene = true → ¬ o.type = ObjType.LIGHT := by
  have hl : (st.objects.any fun o => decide (o.type = ObjType.LIGHT)) = true := by
    rcases hdata with ⟨o, ho, hty⟩
    exact List.any_eq_true.mpr ⟨o, ho, decide_eq_true hty⟩
  have hl2 : ((cameraPhase st).objects.any fun o => decide (o.type = ObjType.LIGHT)) = true := by
    rw [cameraPhase_any_light st]; exact hl
  rw [cameraLightStep, lightPhase_true _ hl2]
  rcases hc : st.sceneCamera with _ | c
  · rw [cameraPhase_none st hc]
    intro o ho h1
    rcases List.mem_append.mp ho with hin | hin
    · rw [deselect_all_objects] at hin
      rcases List.mem_map.mp hin with ⟨a, ha, rfl⟩
      by_cases g : a.inScene <;> simp_all
    · rcases List.mem_singleton.mp hin with rfl
      intro hty
      exact absurd hty (by decide)
  · rw [cameraPhase_some st c hc]
    exact hscene

theorem find?_append_left {α : Type} (p : α → Bool) (l1 l2 : List α) (x : α)
    (h : l1.find? p = some x) : (l1 ++ l2).find? p = some x := by
  induction l1 with
  | nil => simp [List.find?] at h
  | cons a t ih =>
    rcases ha : p a with _ | _
    · rw [List.find?_cons_of_neg _ (by simp [ha])] at h
      rw [List.cons_append, List.find?_cons_of_neg _ (by simp [ha])]
      exact ih h
    · rw [List.find?_cons_of_pos _ ha] at h
      rw [List.cons_append, List.find?_cons_of_pos _ ha]
      exact h

theorem filter_bg_of_keep (nodes : List WNode) :
    ((nodes.filter fun n => decide (n.ntype = "OUTPUT_WORLD")).filter
      fun n => decide (n.ntype = "BACKGROUND")) = [] := by
  rw [List.filter_filter]
  refine List.filter_eq_nil_iff.mpr fun n _ => ?_
  by_cases h : n.ntype = "OUTPUT_WORLD" <;> simp [h]

/-- Claim C9: when the world-setup part of the render section runs on a
state whose world either does not exist, has no node tree yet, or has a
World Output node, it succeeds, and afterwards the world node tree contains
exactly one Background node, with colour (0.5, 0.5, 0.5, 1.0) (mid-gray)
and strength 5.0, linked from its Background output to the Surface input of
the first World Output node; a world named NewWorld is created first when
the scene had none. -/
theorem collada_c9_world_background_rebuild (st : BState) (p : String) (h : worldReady st = true) :
    ∃ stR, renderSetupStep p st = some stR ∧
      ∃ w bg out, stR.world = some w ∧
        (w.nodes.filter fun n => decide (n.ntype = "BACKGROUND")) = [bg] ∧
        bg.ntype = "BACKGROUND" ∧
        bg.colorInput = ⟨0.5, 0.5, 0.5, 1⟩ ∧ bg.strengthInput = 5 ∧
        w.nodes.find? (fun n => decide (n.ntype = "OUTPUT_WORLD")) = some out ∧
        (⟨bg.nid, "Background", out.nid, "Surface"⟩ : WLink) ∈ w.links ∧
        (st.world = none → w.name = "NewWorld") := by
  rcases hw : st.world with _ | w
  · rw [renderSetupStep, hw]
    exact ⟨_, rfl, _, _, _, rfl, rfl, rfl, rfl, rfl, rfl,
      List.mem_singleton.mpr rfl, fun _ => rfl⟩
  · by_cases hni : w.nodes = []
    · obtain ⟨wn, wu, wnodes, wlinks, wid⟩ := w
      simp only at hni
      subst hni
      rw [renderSetupStep, hw]
      exact ⟨_, rfl, _, _, _, rfl, rfl, rfl, rfl, rfl, rfl,
        List.mem_singleton.mpr rfl,
        fun hcon => (Option.some_ne_none _ hcon).elim⟩
    · have hen : enable_use_nodes w = { w with use_nodes := true } := by
        rw [enable_use_nodes]
        simp [hni]
      have hany : (w.nodes.any fun n => decide (n.ntype = "OUTPUT_WORLD")) = true := by
        rw [worldReady, hw] at h
        rcases Bool.or_eq_true_iff.mp h with h1 | h2
        · exact absurd (List.isEmpty_iff.mp h1) hni
        · exact h2
      have hex : ∃ n ∈ w.nodes.filter (fun n => decide (n.ntype = "OUTPUT_WORLD")),
          (fun n => decide (n.ntype = "OUTPUT_WORLD")) n = true := by
        rcases List.any_eq_true.mp hany with ⟨n, hn, hp⟩
        exact ⟨n, List.mem_filter.mpr ⟨hn, hp⟩, hp⟩
      obtain ⟨out0, hfind⟩ := Option.isSome_iff_exists.mp (List.find?_isSome.mpr hex)
      rw [renderSetupStep, hw]
      dsimp only []
      rw [hen]
      dsimp only []
      rw [find?_append_left _ _ _ _ hfind]
      refine ⟨_, rfl, _,
        ({ nid := w.nextId, ntype := "BACKGROUND", colorInput := ⟨0.5, 0.5, 0.5, 1⟩,
           strengthInput := 5, nodeLoc := (-300, 0) } : WNode), out0,
        rfl, ?_, rfl, rfl, rfl, ?_, ?_, ?_⟩
      · rw [List.filter_append, filter_bg_of_keep]
        simp
      · exact find?_append_left _ _ _ _ hfind
      · exact List.mem_append.mpr (Or.inr (List.mem_singleton.mpr rfl))
      · exact fun hcon => (Option.some_ne_none _ hcon).elim

theorem getLast?_append_two {α : Type} (l : List α) (a b : α) :
    (l ++ [a, b]).getLast? = some b := by
  have h : l ++ [a, b] = (l ++ [a]) ++ [b] := by simp
  rw [h, List.getLast?_concat]

/-- Claim C6: when no argument follows the double dash (or the double dash
is absent), the run prints the error and usage messages and exits with
status 1, having performed no other effect; and every run that reaches the
end of the script has the quit-Blender call as its last effect. -/
theorem collada_c6_usage_exit_and_quit (argvFull : List String) (imp : Except String BState) :
    (afterDashDash argvFull = [] →
      run argvFull imp
        = { outcome := Outcome.exited 1,
            events := [Event.printMsg noInputMsg, Event.printMsg usageMsg] }) ∧
    ((run argvFull imp).outcome = Outcome.completed →
      (run argvFull imp).events.getLast? = some Event.quitBlender) := by
  constructor
  · intro h
    unfold run
    rw [h]
  · rcases ha : afterDashDash argvFull with _ | ⟨input, rest⟩ <;>
      unfold run <;> rw [ha] <;> dsimp only []
    · intro h
      exact absurd h (by decide)
    · by_cases h1 : (rest.getD 0 "" ≠ "" ∧ dirname (rest.getD 0 "") = "")
      · rw [if_pos h1]
        intro h
        exact absurd h (by decide)
      · rw [if_neg h1]
        by_cases h2 : (rest.getD 1 "" ≠ "" ∧ dirname (rest.getD 1 "") = "")
        · rw [if_pos h2]
          intro h
          simp at h
        · rw [if_neg h2]
          rcases imp with e | st0 <;> dsimp only []
          · intro h
            exact absurd h (by decide)
          · by_cases h3 : rest.getD 1 "" = ""
            · rw [if_pos h3]
              intro _
              exact List.getLast?_concat _
            · rw [if_neg h3]
              rcases hrs : renderSetupStep (rest.getD 1 "") (processedState st0) with _ | st4 <;>
                dsimp only [] <;> intro h
              · simp at h
              · exact getLast?_append_two _ _ _

theorem not_save_pre (input bp ip q : String) :
    Event.saveMainfile q ∉ preImportEvents input bp ip := by
  simp only [preImportEvents, mkdirEvents]
  split_ifs <;> simp

theorem not_render_pre (input bp ip : String) (s : RenderSettings) :
    Event.renderWrite s ∉ preImportEvents input bp ip := by
  simp only [preImportEvents, mkdirEvents]
  split_ifs <;> simp

theorem not_quit_pre (input bp ip : String) :
    Event.quitBlender ∉ preImportEvents input bp ip := by
  simp only [preImportEvents, mkdirEvents]
  split_ifs <;> simp

/-- Claim C4 (amended): the .blend file is saved to the second positional
argument exactly when that argument was supplied and non-empty, its
directory name is non-empty, any supplied non-empty third argument also has
a non-empty directory name (otherwise the directory-creation step aborts
the run first), and the COLLADA import succeeded. -/
theorem collada_c4_save_iff_amended (argvFull : List String) (imp : Except String BState) :
    (Event.saveMainfile ((afterDashDash argvFull).getD 1 "") ∈ (run argvFull imp).events)
      ↔ ((afterDashDash argvFull).getD 1 "" ≠ ""
         ∧ dirname ((afterDashDash argvFull).getD 1 "") ≠ ""
         ∧ ((afterDashDash argvFull).getD 2 "" ≠ "" → dirname ((afterDashDash argvFull).getD 2 "") ≠ "")
         ∧ imp.isOk = true) := by
  rcases ha : afterDashDash argvFull with _ | ⟨input, rest⟩ <;>
    unfold run <;> rw [ha] <;> dsimp only []
  · constructor
    · intro h
      simp at h
    · rintro ⟨h1, -⟩
      exact absurd rfl h1
  · simp only [List.getD_cons_succ]
    by_cases h1 : (rest.getD 0 "" ≠ "" ∧ dirname (rest.getD 0 "") = "")
    · rw [if_pos h1]
      constructor
      · intro h
        exact absurd h (List.not_mem_nil _)
      · rintro ⟨hne, hdir, -, -⟩
        exact absurd h1.2 hdir
    · rw [if_neg h1]
      by_cases h2 : (rest.getD 1 "" ≠ "" ∧ dirname (rest.getD 1 "") = "")
      · rw [if_pos h2]
        constructor
        · intro h
          by_cases hbp : rest.getD 0 "" = "" <;> simp [hbp] at h
        · rintro ⟨-, -, himp, -⟩
          exact absurd (himp h2.1) (fun hd => hd h2.2)
      · rw [if_neg h2]
        rcases imp with e | st0 <;> dsimp only []
        · constructor
          · intro h
            rcases List.mem_append.mp h with hm | hm
            · exact absurd hm (not_save_pre _ _ _ _)
            · simp at hm
          · rintro ⟨-, -, -, hok⟩
            simp [Except.isOk, Except.toBool] at hok
        · have hiff : (rest.getD 0 "" ≠ ""
              ∧ dirname (rest.getD 0 "") ≠ ""
              ∧ (rest.getD 1 "" ≠ "" → dirname (rest.getD 1 "") ≠ "")
              ∧ (Except.ok st0 : Except String BState).isOk = true)
              ↔ rest.getD 0 "" ≠ "" := by
            constructor
            · rintro ⟨hne, -, -, -⟩
              exact hne
            · intro hne
              refine ⟨hne, ?_, ?_, rfl⟩
              · intro hd
                exact h1 ⟨hne, hd⟩
              · intro hipne
                intro hd
                exact h2 ⟨hipne, hd⟩
          rw [hiff]
          by_cases h3 : rest.getD 1 "" = ""
          · rw [if_pos h3]
            by_cases hbp : rest.getD 0 "" = ""
            · rw [if_pos hbp]
              constructor
              · intro h
                rcases List.mem_append.mp h with hm | hm
                · rcases List.mem_append.mp hm with hm2 | hm2
                  · exact absurd hm2 (not_save_pre _ _ _ _)
                  · simp at hm2
                · simp at hm
              · intro hne
                exact absurd hbp hne
            · rw [if_neg hbp]
              constructor
              · intro _
                exact hbp
              · intro _
                refine List.mem_append.mpr (Or.inl (List.mem_append.mpr (Or.inr ?_)))
                exact List.mem_singleton.mpr rfl
          · rw [if_neg h3]
            rcases hrs : renderSetupStep (rest.getD 1 "") (processedState st0) with _ | st4 <;>
              dsimp only []
            · by_cases hbp : rest.getD 0 "" = ""
              · rw [if_pos hbp]
                constructor
                · intro h
                  rcases List.mem_append.mp h with hm | hm
                  · exact absurd hm (not_save_pre _ _ _ _)
                  · simp at hm
                · intro hne
                  exact absurd hbp hne
              · rw [if_neg hbp]
                constructor
                · intro _
                  exact hbp
                · intro _
                  refine List.mem_append.mpr (Or.inr ?_)
                  exact List.mem_singleton.mpr rfl
            · by_cases hbp : rest.getD 0 "" = ""
              · rw [if_pos hbp]
                constructor
                · intro h
                  rcases List.mem_append.mp h with hm | hm
                  · rcases List.mem_append.mp hm with hm2 | hm2
                    · exact absurd hm2 (not_save_pre _ _ _ _)
                    · simp at hm2
                  · simp at hm
                · intro hne
                  exact absurd hbp hne
              · rw [if_neg hbp]
                constructor
                · intro _
                  exact hbp
                · intro _
                  refine List.mem_append.mpr (Or.inl (List.mem_append.mpr (Or.inr ?_)))
                  exact List.mem_singleton.mpr rfl

theorem filter_out_eq_nil_of_any_false (nodes : List WNode)
    (h : (nodes.any fun n => decide (n.ntype = "OUTPUT_WORLD")) = false) :
    (nodes.filter fun n => decide (n.ntype = "OUTPUT_WORLD")) = [] := by
  refine List.filter_eq_nil_iff.mpr fun n hn => ?_
  intro hp
  rw [List.any_eq_false] at h
  exact h n hn hp

theorem renderSetupStep_isSome (p : String) (st : BState) :
    (renderSetupStep p st).isSome = worldReady st := by
  rcases hw : st.world with _ | w
  · rw [renderSetupStep, worldReady, hw]
    rfl
  · rw [renderSetupStep, worldReady, hw]
    by_cases hni : w.nodes = []
    · obtain ⟨wn, wu, wnodes, wlinks, wid⟩ := w
      simp only at hni
      subst hni
      rfl
    · have hen : enable_use_nodes w = { w with use_nodes := true } := by
        rw [enable_use_nodes]
        simp [hni]
      dsimp only []
      rw [hen]
      dsimp only []
      rcases hany : (w.nodes.any fun n => decide (n.ntype = "OUTPUT_WORLD")) with _ | _
      · rw [filter_out_eq_nil_of_any_false _ hany]
        have hie : w.nodes.isEmpty = false := by
          rcases hn2 : w.nodes with _ | ⟨a, t⟩
          · exact absurd hn2 hni
          · rfl
        rw [hie]
        rfl
      · have hex : ∃ n ∈ w.nodes.filter (fun n => decide (n.ntype = "OUTPUT_WORLD")),
            (fun n => decide (n.ntype = "OUTPUT_WORLD")) n = true := by
          rcases List.any_eq_true.mp hany with ⟨n, hn, hp⟩
          exact ⟨n, List.mem_filter.mpr ⟨hn, hp⟩, hp⟩
        obtain ⟨out0, hfind⟩ := Option.isSome_iff_exists.mp (List.find?_isSome.mpr hex)
        rw [find?_append_left _ _ _ _ hfind]
        simp
  
theorem renderSetupStep_render (p : String) (st st4 : BState)
    (h : renderSetupStep p st = some st4) :
    st4.render = { engine := "CYCLES", fileFormat := "PNG", filepath := p,
                   resolution_x := 1920, resolution_y := 1080, film_transparent := true } := by
  rw [renderSetupStep] at h
  dsimp only [] at h
  split at h
  · exact absurd h (by simp)
  · cases h
    rfl

/-- Claim C5 (amended): a still image is rendered exactly when the third
positional argument was supplied and non-empty, the directory names of the
supplied output paths are non-empty, the COLLADA import succeeded, and the
world of the processed scene admits the background rebuild (a World Output
node exists after enabling nodes); every render uses engine CYCLES, file
format PNG, resolution 1920x1080, film_transparent true, and the third
argument as the render filepath. -/
theorem collada_c5_render_iff_amended (argvFull : List String) (imp : Except String BState) :
    ((∃ s, Event.renderWrite s ∈ (run argvFull imp).events)
      ↔ ((afterDashDash argvFull).getD 2 "" ≠ ""
         ∧ dirname ((afterDashDash argvFull).getD 2 "") ≠ ""
         ∧ ((afterDashDash argvFull).getD 1 "" ≠ "" → dirname ((afterDashDash argvFull).getD 1 "") ≠ "")
         ∧ ∃ st0, imp = Except.ok st0 ∧ worldReady (processedState st0) = true)) ∧
    (∀ s, Event.renderWrite s ∈ (run argvFull imp).events →
      s = { engine := "CYCLES", fileFormat := "PNG",
            filepath := (afterDashDash argvFull).getD 2 "",
            resolution_x := 1920, resolution_y := 1080, film_transparent := true }) := by
  rcases ha : afterDashDash argvFull with _ | ⟨input, rest⟩ <;>
    unfold run <;> rw [ha] <;> dsimp only []
  · constructor
    · constructor
      · rintro ⟨s, hs⟩
        simp at hs
      · rintro ⟨h1, -⟩
        exact absurd rfl h1
    · intro s hs
      simp at hs
  · simp only [List.getD_cons_succ]
    by_cases h1 : (rest.getD 0 "" ≠ "" ∧ dirname (rest.getD 0 "") = "")
    · rw [if_pos h1]
      constructor
      · constructor
        · rintro ⟨s, hs⟩
          exact absurd hs (List.not_mem_nil _)
        · rintro ⟨-, -, himp, -⟩
          exact absurd (himp h1.1) (fun hd => hd h1.2)
      · intro s hs
        exact absurd hs (List.not_mem_nil _)
    · rw [if_neg h1]
      by_cases h2 : (rest.getD 1 "" ≠ "" ∧ dirname (rest.getD 1 "") = "")
      · rw [if_pos h2]
        constructor
        · constructor
          · rintro ⟨s, hs⟩
            by_cases hbp : rest.getD 0 "" = "" <;> simp [hbp] at hs
          · rintro ⟨-, hdir, -, -⟩
            exact absurd h2.2 hdir
        · intro s hs
          by_cases hbp : rest.getD 0 "" = "" <;> simp [hbp] at hs
      · rw [if_neg h2]
        rcases imp with e | st0 <;> dsimp only []
        · constructor
          · constructor
            · rintro ⟨s, hs⟩
              rcases List.mem_append.mp hs with hm | hm
              · exact absurd hm (not_render_pre _ _ _ _)
              · simp at hm
            · rintro ⟨-, -, -, st0, hok, -⟩
              exact Except.noConfusion hok
          · intro s hs
            rcases List.mem_append.mp hs with hm | hm
            · exact absurd hm (not_render_pre _ _ _ _)
            · simp at hm
        · by_cases h3 : rest.getD 1 "" = ""
          · rw [if_pos h3]
            constructor
            · constructor
              · rintro ⟨s, hs⟩
                exfalso
                rcases List.mem_append.mp hs with hm | hm
                · rcases List.mem_append.mp hm with hm2 | hm2
                  · exact absurd hm2 (not_render_pre _ _ _ _)
                  · by_cases hbp : rest.getD 0 "" = "" <;> simp [hbp] at hm2
                · simp at hm
              · rintro ⟨hne, -⟩
                exact absurd h3 hne
            · intro s hs
              exfalso
              rcases List.mem_append.mp hs with hm | hm
              · rcases List.mem_append.mp hm with hm2 | hm2
                · exact absurd hm2 (not_render_pre _ _ _ _)
                · by_cases hbp : rest.getD 0 "" = "" <;> simp [hbp] at hm2
              · simp at hm
          · rw [if_neg h3]
            rcases hrs : renderSetupStep (rest.getD 1 "") (processedState st0) with _ | st4 <;>
              dsimp only []
            · have hwr : worldReady (processedState st0) = false := by
                have := renderSetupStep_isSome (rest.getD 1 "") (processedState st0)
                rw [hrs] at this
                exact this.symm
              constructor
              · constructor
                · rintro ⟨s, hs⟩
                  exfalso
                  rcases List.mem_append.mp hs with hm | hm
                  · exact absurd hm (not_render_pre _ _ _ _)
                  · by_cases hbp : rest.getD 0 "" = "" <;> simp [hbp] at hm
                · rintro ⟨-, -, -, st1, hok, hw1⟩
                  cases hok
                  rw [hwr] at hw1
                  exact Bool.noConfusion hw1
              · intro s hs
                exfalso
                rcases List.mem_append.mp hs with hm | hm
                · exact absurd hm (not_render_pre _ _ _ _)
                · by_cases hbp : rest.getD 0 "" = "" <;> simp [hbp] at hm
            · have hwr : worldReady (processedState st0) = true := by
                have := renderSetupStep_isSome (rest.getD 1 "") (processedState st0)
                rw [hrs] at this
                exact this.symm
              constructor
              · constructor
                · intro _
                  refine ⟨h3, ?_, ?_, st0, rfl, hwr⟩
                  · intro hd
                    exact h2 ⟨h3, hd⟩
                  · intro hne hd
                    exact h1 ⟨hne, hd⟩
                · intro _
                  refine ⟨st4.render, ?_⟩
                  refine List.mem_append.mpr (Or.inr ?_)
                  exact List.mem_cons_self _ _
              · intro s hs
                rcases List.mem_append.mp hs with hm | hm
                · exfalso
                  rcases List.mem_append.mp hm with hm2 | hm2
                  · exact absurd hm2 (not_render_pre _ _ _ _)
                  · by_cases hbp : rest.getD 0 "" = "" <;> simp [hbp] at hm2
                · rcases List.mem_cons.mp hm with hm2 | hm2
                  · cases hm2
                    exact renderSetupStep_render _ _ _ hrs
                  · simp at hm2

/-- Claim C7: when the COLLADA importer raises a RuntimeError, the run
exits with status 1; its effects are exactly the directory creations, the
attempt message, the factory reset with use_empty, the import call with
auto_connect true, find_chains false and fix_orientation true, and the
error message — in particular no save, no render and no quit call occur,
and the import was attempted directly after emptying the scene. -/
theorem collada_c7_import_error_aborts (argvFull : List String) (e : String) (input : String)
    (rest : List String)
    (ha : afterDashDash argvFull = input :: rest)
    (hbp : rest.getD 0 "" ≠ "" → dirname (rest.getD 0 "") ≠ "")
    (hip : rest.getD 1 "" ≠ "" → dirname (rest.getD 1 "") ≠ "") :
    run argvFull (Except.error e)
      = { outcome := Outcome.exited 1,
          events := preImportEvents input (rest.getD 0 "") (rest.getD 1 "")
            ++ [Event.printMsg (importErrorMsg e)] } ∧
    (∀ q, Event.saveMainfile q ∉ (run argvFull (Except.error e)).events) ∧
    (∀ s, Event.renderWrite s ∉ (run argvFull (Except.error e)).events) ∧
    Event.quitBlender ∉ (run argvFull (Except.error e)).events := by
  have h1 : ¬(rest.getD 0 "" ≠ "" ∧ dirname (rest.getD 0 "") = "") := by
    rintro ⟨hne, hd⟩
    exact hbp hne hd
  have h2 : ¬(rest.getD 1 "" ≠ "" ∧ dirname (rest.getD 1 "") = "") := by
    rintro ⟨hne, hd⟩
    exact hip hne hd
  have heq : run argvFull (Except.error e)
      = { outcome := Outcome.exited 1,
          events := preImportEvents input (rest.getD 0 "") (rest.getD 1 "")
            ++ [Event.printMsg (importErrorMsg e)] } := by
    unfold run
    rw [ha]
    dsimp only []
    rw [if_neg h1, if_neg h2]
  refine ⟨heq, ?_, ?_, ?_⟩
  · intro q
    rw [heq]
    intro hm
    rcases List.mem_append.mp hm with hm2 | hm2
    · exact absurd hm2 (not_save_pre _ _ _ _)
    · simp at hm2
  · intro s
    rw [heq]
    intro hm
    rcases List.mem_append.mp hm with hm2 | hm2
    · exact absurd hm2 (not_render_pre _ _ _ _)
    · simp at hm2
  · rw [heq]
    intro hm
    rcases List.mem_append.mp hm with hm2 | hm2
    · exact absurd hm2 (not_quit_pre _ _ _)
    · simp at hm2

/-- Claim C8: when the second or the third positional argument is a bare
non-empty file name without a directory component, the run raises
FileNotFoundError from os.makedirs on the empty string before importing
anything: its only effects are directory creations. -/
theorem collada_c8_bare_output_path_crash (argvFull : List String) (imp : Except String BState)
    (h : ((afterDashDash argvFull).getD 1 "" ≠ ""
            ∧ dirname ((afterDashDash argvFull).getD 1 "") = "")
       ∨ ((afterDashDash argvFull).getD 2 "" ≠ ""
            ∧ dirname ((afterDashDash argvFull).getD 2 "") = "")) :
    (run argvFull imp).outcome = Outcome.exception fnfMsg ∧
    (run argvFull imp).events.all isMakedirsEvent = true := by
  rcases ha : afterDashDash argvFull with _ | ⟨input, rest⟩
  · rw [ha] at h
    simp at h
  · rw [ha] at h
    simp only [List.getD_cons_succ] at h
    unfold run
    rw [ha]
    dsimp only []
    by_cases h1 : (rest.getD 0 "" ≠ "" ∧ dirname (rest.getD 0 "") = "")
    · rw [if_pos h1]
      exact ⟨rfl, rfl⟩
    · rw [if_neg h1]
      rcases h with hA | hB
      · exact absurd hA h1
      · rw [if_pos hB]
        refine ⟨rfl, ?_⟩
        by_cases hbp : rest.getD 0 "" = ""
        · rw [if_pos hbp]
          rfl
        · rw [if_neg hbp]
          rfl

/-- Claim C1 (code evaluation at the failing input): on a scene with an
armature at translation (1, 2, 3) parenting a mesh at local translation
(0, 0, 0) — so the mesh has world translation (1, 2, 3) — the
parent-clearing loop leaves the parent link of the mesh in place (the code
never selects the mesh, so parent_clear acts on no object), and after the
armature-removal step the armature is gone and the mesh has lost its
parent, but its world translation has changed to (0, 0, 0): the mesh does
not keep its world transformation, contrary to the claim and to the log
output of the code. -/
theorem collada_c1_armature_keep_transform_code_eval :
    worldLoc stArmEx meshEx = ⟨1, 2, 3⟩ ∧
    ((armatureClearPhase (deselect_all stArmEx)).1.objects.map fun o => (o.name, o.parent))
      = [("Arm", (none : Option String)), ("M", some "Arm")] ∧
    ((armatureRemovalStep stArmEx).objects.map fun o =>
        (o.name, o.parent, o.type, worldLoc (armatureRemovalStep stArmEx) o))
      = [("M", (none : Option String), ObjType.MESH, (⟨0, 0, 0⟩ : Vec3))] := by
  refine ⟨?_, by decide, by decide⟩
  simp [worldLoc, stArmEx, meshEx, armEx, worldLocAux, Vec3.add]

/-- Witness for claim C2 at two concrete states: a scene with one mesh gets
that mesh centred, and a scene without meshes keeps all object fields. -/
theorem collada_c2_placement_normalization_witness :
    (∀ o ∈ (centerStep stMeshEx).objects, o.inScene = true → o.type = ObjType.MESH →
        o.origin = o.geomBoundsCenter ∧ o.location = ⟨0, 0, 0⟩) ∧
    (centerStep stCamLightEx).objects.map objCore = stCamLightEx.objects.map objCore :=
  ⟨(collada_c2_placement_normalization stMeshEx).1 (by decide),
   ((collada_c2_placement_normalization stCamLightEx).2 (by decide)).1⟩

/-- Witness for claim C3 at two concrete states: the empty scene receives
the default camera and the Sun light, and a scene that already has an
active camera keeps its camera objects unchanged. -/
theorem collada_c3_camera_light_ensured_witness :
    (cameraLightStep stEmptyEx).sceneCamera.isSome = true ∧
    (∃ c ∈ (cameraLightStep stEmptyEx).objects, c.type = ObjType.CAMERA ∧
        c.location = ⟨7, -7, 5⟩ ∧ c.rotation_euler = ⟨1.1, 0, 0.8⟩ ∧
        (cameraLightStep stEmptyEx).sceneCamera = some c.name) ∧
    (∃ l ∈ (cameraLightStep stEmptyEx).objects, l.type = ObjType.LIGHT ∧
        l.light = some { kind := "SUN", energy := 3, diffuse_factor := 1,
                         specular_factor := 1, angle := mathRadians 5 } ∧
        l.rotation_euler = ⟨mathRadians (-60), 0, mathRadians 0⟩) ∧
    ((cameraLightStep stCamLightEx).objects.filter
        fun o => decide (o.type = ObjType.CAMERA)).map objCore
      = (stCamLightEx.objects.filter fun o => decide (o.type = ObjType.CAMERA)).map objCore :=
  ⟨(collada_c3_camera_light_ensured stEmptyEx).1,
   (collada_c3_camera_light_ensured stEmptyEx).2.2.2.1 rfl,
   (collada_c3_camera_light_ensured stEmptyEx).2.2.2.2.2 rfl,
   ((collada_c3_camera_light_ensured stCamLightEx).2.2.1 rfl).1⟩

/-- Counterexample for claim C4 as stated: with the command line
blender -b -- in.dae "" a second positional argument is supplied after the
double dash, yet the run completes without ever saving a .blend file,
because the empty string is falsy in the truthiness test of the code. -/
theorem collada_c4_save_iff_counterexample :
    (afterDashDash ["blender", "-b", "--", "in.dae", ""]).length = 2 ∧
    (run ["blender", "-b", "--", "in.dae", ""] (Except.ok stCamLightEx)).outcome
      = Outcome.completed ∧
    (run ["blender", "-b", "--", "in.dae", ""] (Except.ok stCamLightEx)).events.all
      (fun ev => !(isSaveEvent ev)) = true := by
  decide

/-- Witness for the amended claim C4: a run with a well-formed second
argument and a successful import saves the .blend file. -/
theorem collada_c4_save_iff_amended_witness :
    Event.saveMainfile "d/out.blend"
      ∈ (run ["--", "in.dae", "d/out.blend"] (Except.ok stEmptyEx)).events :=
  (collada_c4_save_iff_amended ["--", "in.dae", "d/out.blend"] (Except.ok stEmptyEx)).mpr
    ⟨by decide, by decide, fun h => absurd rfl h, rfl⟩

/-- Counterexample for claim C5 as stated: with the command line
blender -b -- in.dae d/o.blend "" a third positional argument is supplied
after the double dash, yet the run completes without rendering anything,
because the empty string is falsy in the truthiness test of the code. -/
theorem collada_c5_render_iff_counterexample :
    (afterDashDash ["blender", "-b", "--", "in.dae", "d/o.blend", ""]).length = 3 ∧
    (run ["blender", "-b", "--", "in.dae", "d/o.blend", ""] (Except.ok stCamLightEx)).outcome
      = Outcome.completed ∧
    (run ["blender", "-b", "--", "in.dae", "d/o.blend", ""] (Except.ok stCamLightEx)).events.all
      (fun ev => !(isRenderEvent ev)) = true := by
  decide

/-- Witness for the amended claim C5: a run with well-formed second and
third arguments and a successful import on an empty scene renders. -/
theorem collada_c5_render_iff_amended_witness :
    ∃ s, Event.renderWrite s
      ∈ (run ["--", "in.dae", "d/o.blend", "out/r.png"] (Except.ok stEmptyEx)).events :=
  (collada_c5_render_iff_amended ["--", "in.dae", "d/o.blend", "out/r.png"]
      (Except.ok stEmptyEx)).1.mpr
    ⟨by decide, by decide, by decide, stEmptyEx, rfl, rfl⟩

/-- Witness for claim C6: a command line without the double dash yields the
usage exit, and a complete run ends with the quit call. -/
theorem collada_c6_usage_exit_and_quit_witness :
    run ["blender", "-b", "-P", "script.py"] (Except.ok stEmptyEx)
      = { outcome := Outcome.exited 1,
          events := [Event.printMsg noInputMsg, Event.printMsg usageMsg] } ∧
    (run ["--", "in.dae"] (Except.ok stEmptyEx)).events.getLast?
      = some Event.quitBlender :=
  ⟨(collada_c6_usage_exit_and_quit ["blender", "-b", "-P", "script.py"]
      (Except.ok stEmptyEx)).1 rfl,
   (collada_c6_usage_exit_and_quit ["--", "in.dae"] (Except.ok stEmptyEx)).2 (by decide)⟩

/-- Witness for claim C7: a failing import on a run with only the input
argument exits with status 1 after exactly the pre-import effects. -/
theorem collada_c7_import_error_aborts_witness :
    run ["--", "in.dae"] (Except.error "boom")
      = { outcome := Outcome.exited 1,
          events := preImportEvents "in.dae" "" ""
            ++ [Event.printMsg (importErrorMsg "boom")] } ∧
    Event.quitBlender ∉ (run ["--", "in.dae"] (Except.error "boom")).events :=
  ⟨(collada_c7_import_error_aborts ["--", "in.dae"] "boom" "in.dae" [] rfl
      (fun h => absurd rfl h) (fun h => absurd rfl h)).1,
   (collada_c7_import_error_aborts ["--", "in.dae"] "boom" "in.dae" [] rfl
      (fun h => absurd rfl h) (fun h => absurd rfl h)).2.2.2⟩

/-- Witness for claim C8: a bare .blend file name makes the run raise
FileNotFoundError with no effects other than directory creations. -/
theorem collada_c8_bare_output_path_crash_witness :
    (run ["--", "in.dae", "bare.blend"] (Except.ok stEmptyEx)).outcome
      = Outcome.exception fnfMsg ∧
    (run ["--", "in.dae", "bare.blend"] (Except.ok stEmptyEx)).events.all
      isMakedirsEvent = true :=
  collada_c8_bare_output_path_crash ["--", "in.dae", "bare.blend"] (Except.ok stEmptyEx)
    (Or.inl ⟨by decide, by decide⟩)

/-- Witness for claim C9: on the empty state (no world) the render setup
succeeds and builds the NewWorld background tree. -/
theorem collada_c9_world_background_rebuild_witness :
    ∃ stR, renderSetupStep "out/render.png" stEmptyEx = some stR ∧
      ∃ w bg out, stR.world = some w ∧
        (w.nodes.filter fun n => decide (n.ntype = "BACKGROUND")) = [bg] ∧
        bg.ntype = "BACKGROUND" ∧
        bg.colorInput = ⟨0.5, 0.5, 0.5, 1⟩ ∧ bg.strengthInput = 5 ∧
        w.nodes.find? (fun n => decide (n.ntype = "OUTPUT_WORLD")) = some out ∧
        (⟨bg.nid, "Background", out.nid, "Surface"⟩ : WLink) ∈ w.links ∧
        (stEmptyEx.world = none → w.name = "NewWorld") :=
  collada_c9_world_background_rebuild stEmptyEx "out/render.png" rfl

/-- Witness for claim C10: a state whose only light lies outside the scene
keeps its scene lightless through the camera and light step. -/
theorem collada_c10_light_scope_mismatch_witness :
    ((cameraLightStep stOutsideLightEx).objects.all
      fun o => !(o.inScene && decide (o.type = ObjType.LIGHT))) = true := by
  have h := collada_c10_light_scope_mismatch stOutsideLightEx (by decide) (by decide)
  refine List.all_eq_true.mpr fun o ho => ?_
  by_cases h1 : o.inScene
  · have h2 := h o ho h1
    simp [h1, h2]
  · simp [h1]
